import Mathlib

/-!
Shallow embedding of the webrtcaudioprocessing GStreamer plugin
(src/plugin/src/gstwebrtcaudioprobe.cpp and gstwebrtcaudioprocessor.cpp).

Machine integers are modelled as `Nat`/`Int` with explicit wrapping where the
C code's `guint64`/`gint64` arithmetic can overflow.  `GstClockTime` is a
`Nat` with the sentinel `GST_CLOCK_TIME_NONE = 2^64 - 1` standing for the
invalid time.  The `GstAdapter` is modelled as the list of pushed buffers
together with the prev-pts / prev-pts-distance / pts-at-discont bookkeeping
that `gst_adapter_push`, `gst_adapter_flush` and `gst_adapter_prev_pts`
maintain.
-/

namespace WebrtcAudio

/-- Modulus of `guint64` arithmetic. -/
def U64MOD : Nat := 18446744073709551616

/-- The invalid clock time sentinel (`GST_CLOCK_TIME_NONE = (guint64) -1`). -/
def GST_CLOCK_TIME_NONE : Nat := 18446744073709551615

def GST_SECOND : Nat := 1000000000

def GST_MSECOND : Nat := 1000000

def G_MAXINT64 : Int := 9223372036854775807

/-- Constant from gstwebrtcaudioprobe.cpp line 38. -/
def kMaxDataSizeSamples : Nat := 7680

/-- Constant from gstwebrtcaudioprobe.cpp line 43 (1 MiB). -/
def MAX_ADAPTER_SIZE : Nat := 1048576

/-- Interpret an integer as a wrapped signed 64-bit value (two's complement). -/
def i64 (x : Int) : Int := (x + 9223372036854775808) % 18446744073709551616 - 9223372036854775808

/-- Conversion of a signed 64-bit value to `gsize` (unsigned 64-bit). -/
def u64ofInt (x : Int) : Nat := (x % 18446744073709551616).toNat

/-- GST_CLOCK_TIME_IS_VALID. -/
def clockTimeValid (t : Nat) : Bool := t != GST_CLOCK_TIME_NONE

/-- gst_util_uint64_scale_int: `val * num / denom` computed without
intermediate overflow; an overflowing result yields G_MAXUINT64. -/
def gst_util_uint64_scale_int (val num denom : Nat) : Nat :=
  min (val * num / denom) (U64MOD - 1)

/-- A GstBuffer as the adapter sees it: presentation timestamp, payload
bytes, and the DISCONT flag. -/
structure GstBuffer where
  pts : Nat
  bytes : List Nat
  discont : Bool
deriving DecidableEq, Repr

def bufSize (b : GstBuffer) : Nat := b.bytes.length

/-- GstAdapter state: queue of pushed buffers (head oldest, a partially
consumed head keeps only its unconsumed bytes), the prev-pts bookkeeping of
`gst_adapter_prev_pts`, and the pts recorded at the last DISCONT buffer. -/
structure GstAdapter where
  bufs : List GstBuffer
  pts : Nat
  ptsDistance : Nat
  ptsAtDiscont : Nat
deriving DecidableEq, Repr

def emptyAdapter : GstAdapter :=
  { bufs := [], pts := GST_CLOCK_TIME_NONE, ptsDistance := 0,
    ptsAtDiscont := GST_CLOCK_TIME_NONE }

/-- gst_adapter_clear. -/
def adapterClear (_a : GstAdapter) : GstAdapter := emptyAdapter

/-- gst_adapter_available. -/
def adapterAvailable (a : GstAdapter) : Nat := (a.bufs.map bufSize).sum

/-- The adapter's buffered bytes, oldest first. -/
def adapterBytes (a : GstAdapter) : List Nat := (a.bufs.map GstBuffer.bytes).flatten

/-- gst_adapter_push: appends the buffer; a DISCONT buffer records its pts;
pushing onto an empty adapter installs the buffer's pts (when valid) as the
prev-pts with distance 0 (update_timestamps_and_offset). -/
def adapterPush (a : GstAdapter) (b : GstBuffer) : GstAdapter :=
  let a := if b.discont then { a with ptsAtDiscont := b.pts } else a
  if a.bufs.isEmpty then
    if clockTimeValid b.pts then
      { a with bufs := [b], pts := b.pts, ptsDistance := 0 }
    else
      { a with bufs := [b] }
  else
    { a with bufs := a.bufs ++ [b] }

/-- Core of gst_adapter_flush_unchecked: whole head buffers covered by the
flush are removed, each newly exposed head installing its pts (when valid)
with distance 0; a remaining partial flush drops bytes from the head and adds
to the distance. -/
def flushAux : Nat → List GstBuffer → Nat → Nat → List GstBuffer × Nat × Nat
  | _, [], pts, dist => ([], pts, dist)
  | f, b :: rest, pts, dist =>
    if bufSize b ≤ f then
      match rest with
      | [] => ([], pts, dist + bufSize b)
      | b2 :: rest2 =>
        if clockTimeValid b2.pts then
          flushAux (f - bufSize b) (b2 :: rest2) b2.pts 0
        else
          flushAux (f - bufSize b) (b2 :: rest2) pts (dist + bufSize b)
    else
      ({ pts := b.pts, bytes := b.bytes.drop f, discont := b.discont } :: rest,
       pts, dist + f)

/-- gst_adapter_flush. -/
def adapterFlush (a : GstAdapter) (n : Nat) : GstAdapter :=
  let r := flushAux n a.bufs a.pts a.ptsDistance
  { a with bufs := r.1, pts := r.2.1, ptsDistance := r.2.2 }

/-- gst_adapter_prev_pts: the recorded pts and the byte distance consumed
since the buffer carrying it started. -/
def adapterPrevPts (a : GstAdapter) : Nat × Nat := (a.pts, a.ptsDistance)

/-- GstAudioInfo restricted to the fields this plugin reads; validity
(GST_AUDIO_INFO_IS_VALID) demands positive rate, channels and bpf. -/
structure AudioInfo where
  rate : Nat
  channels : Nat
  bpf : Nat
deriving DecidableEq, Repr

def audioInfoValid (i : AudioInfo) : Bool :=
  i.rate != 0 && i.channels != 0 && i.bpf != 0

/-- gst_audio_info_init leaves an all-zero (invalid) info. -/
def audioInfoInit : AudioInfo := { rate := 0, channels := 0, bpf := 0 }

inductive FlowReturn
  | ok
  | error
deriving DecidableEq, Repr

/-- GstWebrtcAudioProbe instance state (gstwebrtcaudioprobe.h). -/
structure Probe where
  name : String
  info : AudioInfo
  period_size : Nat
  period_samples : Nat
  latency : Nat
  delay : Int
  explicit_latency : Int
  explicit_delay : Int
  adapter : GstAdapter
  acquired : Bool
deriving DecidableEq, Repr

/-- gst_webrtc_audio_probe_init over the zero-filled GObject instance.  Note
that the instance-init function runs before the G_PARAM_CONSTRUCT properties
are applied, so `explicit_latency` and `explicit_delay` read as 0 here; the
store of GST_CLOCK_TIME_NONE into `latency` (line 260) is immediately
overwritten by lines 261-262. -/
def gst_webrtc_audio_probe_init (name : String) : Probe :=
  let explicit_latency : Int := 0
  let explicit_delay : Int := 0
  { name := name
    info := audioInfoInit
    period_size := 0
    period_samples := 0
    latency := if explicit_latency != -1 then u64ofInt (explicit_latency * 1000000) else 0
    delay := if explicit_delay != -1 then explicit_delay else 0
    explicit_latency := explicit_latency
    explicit_delay := explicit_delay
    adapter := emptyAdapter
    acquired := false }

def probe_set_explicit_latency (p : Probe) (v : Int) : Probe :=
  { p with explicit_latency := v }

def probe_set_explicit_delay (p : Probe) (v : Int) : Probe :=
  { p with explicit_delay := v }

/-- A probe as g_object_new produces it: instance init, then the
G_PARAM_CONSTRUCT properties applied at their defaults (-1, -1). -/
def probeNew (name : String) : Probe :=
  probe_set_explicit_delay (probe_set_explicit_latency (gst_webrtc_audio_probe_init name) (-1)) (-1)

/-- gst_webrtc_audio_probe_setup: stores the format and the derived period
sizes first, then rejects the format if the period exceeds
2 * kMaxDataSizeSamples bytes. -/
def gst_webrtc_audio_probe_setup (p : Probe) (info : AudioInfo) : Bool × Probe :=
  let period_samples := info.rate / 100
  let period_size := period_samples * info.bpf
  let p := { p with info := info, period_samples := period_samples, period_size := period_size }
  if kMaxDataSizeSamples * 2 < period_size then (false, p) else (true, p)

/-- The GST_EVENT_LATENCY branch of gst_webrtc_audio_probe_src_event:
`latency` is the queried event latency in ns unless overridden, `delay` the
queried upstream latency in ms unless overridden (a failed or invalid
upstream query has already been folded to 0 by the caller-side code). -/
def gst_webrtc_audio_probe_latency_event (p : Probe) (latency upstream_latency : Nat) : Probe :=
  { p with
    latency := if p.explicit_latency != -1 then u64ofInt (p.explicit_latency * 1000000) else latency
    delay := if p.explicit_delay != -1 then p.explicit_delay
             else (upstream_latency / GST_MSECOND : Nat) }

/-- gst_webrtc_audio_probe_transform_ip: push the (running-time stamped)
buffer, then trim the oldest excess beyond MAX_ADAPTER_SIZE. -/
def gst_webrtc_audio_probe_transform_ip (p : Probe) (bytes : List Nat)
    (running_pts : Nat) (discont : Bool) : FlowReturn × Probe :=
  let a := adapterPush p.adapter { pts := running_pts, bytes := bytes, discont := discont }
  let a := if MAX_ADAPTER_SIZE < adapterAvailable a then
             adapterFlush a (adapterAvailable a - MAX_ADAPTER_SIZE)
           else a
  (FlowReturn.ok, { p with adapter := a })

/-- The `diff` computation of gst_webrtc_audio_probe_read (lines 358-378):
empty buffer means "infinitely ahead" (G_MAXINT64); otherwise the oldest
pending timestamp is extrapolated by the consumed distance and the latency,
falling back to `delay` when no timestamp was ever recorded. -/
def probeReadDiff (p : Probe) (rec_time : Nat) : Int :=
  let avail := adapterAvailable p.adapter / p.info.bpf
  if avail = 0 then G_MAXINT64
  else
    let play_time := p.adapter.pts
    let distance := p.adapter.ptsDistance / p.info.bpf
    if clockTimeValid play_time then
      let pt1 := (play_time + gst_util_uint64_scale_int distance GST_SECOND p.info.rate) % U64MOD
      let pt2 := (pt1 + p.latency) % U64MOD
      (i64 ((pt2 : Int) - (rec_time : Int))).tdiv (GST_MSECOND : Int)
    else
      p.delay

/-- The clamp policy of gst_webrtc_audio_probe_read (lines 380-388), in
sample-frames: `(skip, offset)`. -/
def probeReadSkipOffset (p : Probe) (diff : Int) (avail : Nat) : Nat × Nat :=
  if p.delay < diff then
    let s := u64ofInt ((i64 (i64 (diff - p.delay) * (p.info.rate : Int))).tdiv 1000)
    (min p.period_samples s, 0)
  else
    let o := u64ofInt ((i64 (i64 (p.delay - diff) * (p.info.rate : Int))).tdiv 1000)
    (0, min avail o)

/-- Overwrite `src.length` bytes of `dst` starting at byte `off`. -/
def writeBytes (dst : List Nat) (off : Nat) (src : List Nat) : List Nat :=
  dst.take off ++ src ++ dst.drop (off + src.length)

/-- Result of gst_webrtc_audio_probe_read: the returned delay, the value
written through the `rate` out-parameter (none when left untouched), the
final contents of the caller's destination block, and the updated probe. -/
structure ReadResult where
  delay : Int
  rateOut : Option Nat
  data : List Nat
  probe : Probe
deriving DecidableEq, Repr

/-- gst_webrtc_audio_probe_read (lines 345-412).  `data0` is the initial
contents of the caller's destination block. -/
def gst_webrtc_audio_probe_read (p : Probe) (rec_time : Nat) (data0 : List Nat) : ReadResult :=
  if clockTimeValid p.latency && audioInfoValid p.info then
    let avail := adapterAvailable p.adapter / p.info.bpf
    let diff := probeReadDiff p rec_time
    let so := probeReadSkipOffset p diff avail
    let skip := so.1 * p.info.bpf
    let offset := so.2 * p.info.bpf
    let size := min (avail - so.2) (p.period_samples - so.1) * p.info.bpf
    let data1 := if size < p.period_size then
                   List.replicate p.period_size 0 ++ data0.drop p.period_size
                 else data0
    let data2 := if 0 < size then
                   writeBytes data1 skip (((adapterBytes p.adapter).drop offset).take size)
                 else data1
    let adapter2 := if 0 < size then adapterFlush p.adapter (offset + size) else p.adapter
    { delay := p.delay, rateOut := some p.info.rate, data := data2,
      probe := { p with adapter := adapter2 } }
  else
    { delay := -1, rateOut := none, data := data0, probe := p }

/-- gst_webrtc_acquire_audio_probe: scan the registry (most recently
registered first, as gst_aec_probes is built with g_list_prepend), mark and
return the first unacquired probe with the requested name. -/
def gst_webrtc_acquire_audio_probe (name : String) : List Probe → Option Probe × List Probe
  | [] => (none, [])
  | p :: rest =>
    if !p.acquired && p.name == name then
      (some { p with acquired := true }, { p with acquired := true } :: rest)
    else
      let r := gst_webrtc_acquire_audio_probe name rest
      (r.1, p :: r.2)

/-- gst_webrtc_release_audio_probe: clear the acquired flag. -/
def gst_webrtc_release_audio_probe (p : Probe) : Probe := { p with acquired := false }

/-- Calls made across the C boundary into the external DSP engine. -/
inductive EngineCall
  | apDelay (ms : Int)
  | apProcessReverse (rate channels : Nat)
  | apProcess (rate channels : Nat)
deriving DecidableEq, Repr

/-- GstWebrtcAudioProcessor state restricted to the fields the verified
functions read. -/
structure Processor where
  info : AudioInfo
  period_size : Nat
  period_samples : Nat
  adapter : GstAdapter
  echo_cancel : Bool
  probe : Option Probe
deriving DecidableEq, Repr

/-- A buffer produced by gst_webrtc_audio_processor_take_buffer. -/
structure TakenBuffer where
  pts : Nat
  duration : Nat
  discontFlag : Bool
  bytes : List Nat
deriving DecidableEq, Repr

/-- gst_webrtc_audio_processor_take_buffer (lines 326-352): derive the
period's pts from the prev-pts query, take one period from the adapter, and
set DISCONT exactly when the adapter's pts-at-discont equals the derived pts
and the prev-pts distance was zero. -/
def gst_webrtc_audio_processor_take_buffer (self : Processor) : TakenBuffer × Processor :=
  let q := adapterPrevPts self.adapter
  let distance := q.2 / self.info.bpf
  let timestamp := (q.1 + gst_util_uint64_scale_int distance GST_SECOND self.info.rate) % U64MOD
  let bytes := (adapterBytes self.adapter).take self.period_size
  let a := adapterFlush self.adapter self.period_size
  let at_discont := a.ptsAtDiscont == timestamp
  ({ pts := timestamp, duration := 10 * GST_MSECOND,
     discontFlag := at_discont && distance == 0, bytes := bytes },
   { self with adapter := a })

/-- Result of gst_webrtc_audio_processor_analyze_reverse_stream: the flow
return, the engine calls made in order, whether a warning was logged, and
the updated probe. -/
structure ReverseResult where
  flow : FlowReturn
  calls : List EngineCall
  warned : Bool
  probe : Option Probe
deriving DecidableEq, Repr

/-- gst_webrtc_audio_processor_analyze_reverse_stream (lines 354-397).
`data0` is the uninitialized stack block handed to the probe read and
`revStatus` the status ap_process_reverse would return.  ap_delay is invoked
with the read's delay before the sentinel check; a negative delay then
short-circuits with GST_FLOW_OK, a rate mismatch is a GST_FLOW_ERROR, and a
negative ap_process_reverse status is only logged. -/
def gst_webrtc_audio_processor_analyze_reverse_stream (self : Processor)
    (rec_time : Nat) (data0 : List Nat) (revStatus : Int) : ReverseResult :=
  match (if self.echo_cancel then self.probe else none) with
  | none => { flow := FlowReturn.ok, calls := [], warned := false, probe := none }
  | some probe =>
    let r := gst_webrtc_audio_probe_read probe rec_time data0
    if r.delay < 0 then
      { flow := FlowReturn.ok, calls := [EngineCall.apDelay r.delay],
        warned := false, probe := some r.probe }
    else if r.rateOut != some self.info.rate then
      { flow := FlowReturn.error, calls := [EngineCall.apDelay r.delay],
        warned := false, probe := some r.probe }
    else
      { flow := FlowReturn.ok,
        calls := [EngineCall.apDelay r.delay,
                  EngineCall.apProcessReverse self.info.rate self.info.channels],
        warned := decide (revStatus < 0), probe := some r.probe }

/-- gst_webrtc_audio_processor_process_stream (lines 423-459): when the
buffer maps, ap_process runs in place and a negative status is only logged
as a warning; the function returns GST_FLOW_OK either way, so
generate_output still forwards the period block downstream.  Result:
(flow, engine calls, whether a warning was logged). -/
def gst_webrtc_audio_processor_process_stream (self : Processor) (mapOk : Bool)
    (status : Int) : FlowReturn × List EngineCall × Bool :=
  if mapOk then
    (FlowReturn.ok, [EngineCall.apProcess self.info.rate self.info.channels],
     decide (status < 0))
  else
    (FlowReturn.error, [], false)

/-- The state mutation gst_webrtc_audio_processor_setup performs before any
check: clear the adapter, record the format, recompute the period sizes. -/
def processorSetupState (self : Processor) (info : AudioInfo) : Processor :=
  { self with adapter := adapterClear self.adapter, info := info,
              period_samples := info.rate / 100,
              period_size := info.rate / 100 * info.bpf }

/-- gst_webrtc_audio_processor_setup (lines 603-691): after recording the
format, an acquired probe whose known (nonzero) rate differs from the new
format's rate makes setup fail; the probe's channel count is never
compared. -/
def gst_webrtc_audio_processor_setup (self : Processor) (info : AudioInfo) : Bool × Processor :=
  let s1 := processorSetupState self info
  match self.probe with
  | none => (true, s1)
  | some pr =>
    if pr.info.rate != 0 && pr.info.rate != info.rate then (false, s1) else (true, s1)

/-- Far-end ingest sequence: fold gst_webrtc_audio_probe_transform_ip over a
list of (bytes, running-time pts, discont) triples. -/
def probeIngestAll (p : Probe) (ins : List (List Nat × Nat × Bool)) : Probe :=
  ins.foldl (fun q i => (gst_webrtc_audio_probe_transform_ip q i.1 i.2.1 i.2.2).2) p

/-- Mono S16 format at 8 kHz (bpf = 2). -/
def fmt8 : AudioInfo := { rate := 8000, channels := 1, bpf := 2 }

/-- Mono S16 format at 48 kHz (bpf = 2). -/
def fmt48 : AudioInfo := { rate := 48000, channels := 1, bpf := 2 }

/-- Mono S16 format at 16 kHz (bpf = 2). -/
def fmt16 : AudioInfo := { rate := 16000, channels := 1, bpf := 2 }

/-- Wide S16 format (48 kHz, 17 channels): its 10 ms period is 16320 bytes, above the
2 * kMaxDataSizeSamples = 15360 byte ceiling. -/
def fmt48x17 : AudioInfo := { rate := 48000, channels := 17, bpf := 34 }

/-- A freshly constructed probe configured at 8 kHz, no latency event seen. -/
def probeReady8 : Probe := (gst_webrtc_audio_probe_setup (probeNew "webrtcaudioprobe0") fmt8).2

/-- A freshly constructed probe configured at 48 kHz, no latency event seen. -/
def probeReady48 : Probe := (gst_webrtc_audio_probe_setup (probeNew "webrtcaudioprobe0") fmt48).2

/-- A freshly constructed probe configured at 16 kHz. -/
def probeKnown16 : Probe := (gst_webrtc_audio_probe_setup (probeNew "webrtcaudioprobe0") fmt16).2

/-- An 8 kHz probe holding one untimestamped frame (bytes 1, 2). -/
def probeC3 : Probe :=
  { probeReady8 with
    adapter := { bufs := [{ pts := GST_CLOCK_TIME_NONE, bytes := [1, 2], discont := false }],
                 pts := GST_CLOCK_TIME_NONE, ptsDistance := 0,
                 ptsAtDiscont := GST_CLOCK_TIME_NONE } }

/-- An 8 kHz processor whose adapter holds two periods pushed by a single
DISCONT buffer with pts 1000000. -/
def procC6 : Processor :=
  { info := fmt8, period_size := 160, period_samples := 80,
    adapter := adapterPush emptyAdapter
      { pts := 1000000, bytes := List.replicate 320 7, discont := true },
    echo_cancel := false, probe := none }

/-- A 48 kHz echo-cancelling processor bound to a probe that has no format
yet (its read returns the sentinel). -/
def procC5 : Processor :=
  { info := fmt48, period_size := 960, period_samples := 480, adapter := emptyAdapter,
    echo_cancel := true, probe := some (probeNew "webrtcaudioprobe0") }

/-- A 48 kHz echo-cancelling processor bound to a ready 48 kHz probe. -/
def procC9 : Processor :=
  { info := fmt48, period_size := 960, period_samples := 480, adapter := emptyAdapter,
    echo_cancel := true, probe := some probeReady48 }

/-- A 48 kHz processor bound to a probe already configured at 16 kHz. -/
def procC7 : Processor :=
  { info := fmt48, period_size := 960, period_samples := 480, adapter := emptyAdapter,
    echo_cancel := true, probe := some probeKnown16 }

/-- The buffered byte count equals the length of the buffered byte list. -/
theorem adapterBytes_length (a : GstAdapter) : (adapterBytes a).length = adapterAvailable a := by
  simp only [adapterBytes, adapterAvailable, List.length_flatten, List.map_map]
  rfl

/-- Flushing drops exactly the first `f` buffered bytes. -/
theorem flushAux_flatten (bufs : List GstBuffer) :
    ∀ f pts dist, f ≤ ((bufs.map GstBuffer.bytes).flatten).length →
      ((flushAux f bufs pts dist).1.map GstBuffer.bytes).flatten
        = ((bufs.map GstBuffer.bytes).flatten).drop f := by
  induction bufs with
  | nil =>
    intro f pts dist h
    simp [flushAux]
  | cons b rest ih =>
    intro f pts dist h
    by_cases hf : bufSize b ≤ f
    · cases rest with
      | nil =>
        have hfl : f = b.bytes.length := by
          simp [bufSize] at hf
          simp at h
          omega
        subst hfl
        simp [flushAux, bufSize]
      | cons b2 rest2 =>
        have hrec : f - bufSize b ≤ (((b2 :: rest2).map GstBuffer.bytes).flatten).length := by
          simp [bufSize] at hf h ⊢
          omega
        have hdrop :
            (((b2 :: rest2).map GstBuffer.bytes).flatten).drop (f - b.bytes.length)
              = ((b.bytes :: (b2 :: rest2).map GstBuffer.bytes).flatten).drop f := by
          have hsplit : f = b.bytes.length + (f - b.bytes.length) := by
            simp [bufSize] at hf
            omega
          calc (((b2 :: rest2).map GstBuffer.bytes).flatten).drop (f - b.bytes.length)
              = (b.bytes ++ ((b2 :: rest2).map GstBuffer.bytes).flatten).drop
                  (b.bytes.length + (f - b.bytes.length)) := (List.drop_append _).symm
            _ = ((b.bytes :: (b2 :: rest2).map GstBuffer.bytes).flatten).drop f := by
                rw [← hsplit]; simp
        cases hv : clockTimeValid b2.pts
        · rw [show flushAux f (b :: b2 :: rest2) pts dist
                = flushAux (f - bufSize b) (b2 :: rest2) pts (dist + bufSize b) from by
              simp [flushAux, hf, hv]]
          rw [ih (f - bufSize b) pts (dist + bufSize b) hrec]
          simpa [bufSize] using hdrop
        · rw [show flushAux f (b :: b2 :: rest2) pts dist
                = flushAux (f - bufSize b) (b2 :: rest2) b2.pts 0 from by
              simp [flushAux, hf, hv]]
          rw [ih (f - bufSize b) b2.pts 0 hrec]
          simpa [bufSize] using hdrop
    · have hle : f ≤ b.bytes.length := by
        simp [bufSize] at hf
        omega
      rw [flushAux.eq_def]
      simp [hf, List.drop_append_of_le_length hle]

theorem adapterFlush_bytes (a : GstAdapter) (n : Nat) (h : n ≤ adapterAvailable a) :
    adapterBytes (adapterFlush a n) = (adapterBytes a).drop n := by
  have h' : n ≤ ((a.bufs.map GstBuffer.bytes).flatten).length := by
    rw [show ((a.bufs.map GstBuffer.bytes).flatten) = adapterBytes a from rfl,
      adapterBytes_length]
    exact h
  simpa [adapterFlush, adapterBytes] using flushAux_flatten a.bufs n a.pts a.ptsDistance h'

theorem adapterFlush_available (a : GstAdapter) (n : Nat) (h : n ≤ adapterAvailable a) :
    adapterAvailable (adapterFlush a n) = adapterAvailable a - n := by
  rw [← adapterBytes_length, adapterFlush_bytes a n h, List.length_drop, adapterBytes_length]

theorem adapterFlush_ptsAtDiscont (a : GstAdapter) (n : Nat) :
    (adapterFlush a n).ptsAtDiscont = a.ptsAtDiscont := rfl

theorem adapterPush_bytes (a : GstAdapter) (b : GstBuffer) :
    adapterBytes (adapterPush a b) = adapterBytes a ++ b.bytes := by
  unfold adapterPush
  by_cases hd : b.discont <;> by_cases he : a.bufs.isEmpty <;>
    by_cases hv : clockTimeValid b.pts <;>
      simp_all [adapterBytes, List.isEmpty_iff]

theorem adapterPush_available (a : GstAdapter) (b : GstBuffer) :
    adapterAvailable (adapterPush a b) = adapterAvailable a + b.bytes.length := by
  rw [← adapterBytes_length, adapterPush_bytes, List.length_append, adapterBytes_length]

theorem i64_eq_of_bounds (x : Int) (h1 : -9223372036854775808 ≤ x)
    (h2 : x ≤ 9223372036854775807) : i64 x = x := by
  unfold i64
  omega

theorem tdiv_neg_thousand (m : Int) : (-(m * 1000)).tdiv 1000 = -m := by
  rw [show -(m * 1000) = -m * 1000 by ring, Int.mul_tdiv_cancel _ (by norm_num)]

theorem emod_neg_small (m M : Int) (h1 : 0 < m) (h2 : m ≤ M) : (-m) % M = M - m := by
  rw [show -m = (M - m) + M * (-1) by ring, Int.add_mul_emod_self_left,
    Int.emod_eq_of_lt (by omega) (by omega)]

/-- With an empty buffer the clamp policy computes `diff = G_MAXINT64`; the
wrapped multiply `(diff - delay) * rate` lands on a small negative 64-bit
value whose conversion to `gsize` is astronomically large, so the skip is
clamped to a full period and the offset is 0. -/
theorem probeReadSkipOffset_full (p : Probe) (hd0 : 0 ≤ p.delay) (hd1 : p.delay ≤ 1500)
    (hr : p.info.rate = 8000 ∨ p.info.rate = 16000 ∨ p.info.rate = 32000 ∨ p.info.rate = 48000)
    (hps : p.period_samples = p.info.rate / 100) (avail : Nat) :
    probeReadSkipOffset p G_MAXINT64 avail = (p.period_samples, 0) := by
  unfold probeReadSkipOffset
  have hlt : p.delay < G_MAXINT64 := by unfold G_MAXINT64; omega
  rw [if_pos hlt]
  have h1 : i64 (G_MAXINT64 - p.delay) = G_MAXINT64 - p.delay := by
    unfold i64 G_MAXINT64
    omega
  rw [h1]
  rcases hr with h | h | h | h <;> rw [h] at hps ⊢ <;> rw [hps] <;>
    simp only [Nat.cast_ofNat, Prod.mk.injEq] <;> norm_num
  · rw [show i64 ((G_MAXINT64 - p.delay) * 8000) = -(((1 + p.delay) * 8) * 1000) from by
        unfold i64 G_MAXINT64; ring_nf; omega,
      tdiv_neg_thousand]
    unfold u64ofInt
    rw [emod_neg_small _ _ (by omega) (by omega)]
    omega
  · rw [show i64 ((G_MAXINT64 - p.delay) * 16000) = -(((1 + p.delay) * 16) * 1000) from by
        unfold i64 G_MAXINT64; ring_nf; omega,
      tdiv_neg_thousand]
    unfold u64ofInt
    rw [emod_neg_small _ _ (by omega) (by omega)]
    omega
  · rw [show i64 ((G_MAXINT64 - p.delay) * 32000) = -(((1 + p.delay) * 32) * 1000) from by
        unfold i64 G_MAXINT64; ring_nf; omega,
      tdiv_neg_thousand]
    unfold u64ofInt
    rw [emod_neg_small _ _ (by omega) (by omega)]
    omega
  · rw [show i64 ((G_MAXINT64 - p.delay) * 48000) = -(((1 + p.delay) * 48) * 1000) from by
        unfold i64 G_MAXINT64; ring_nf; omega,
      tdiv_neg_thousand]
    unfold u64ofInt
    rw [emod_neg_small _ _ (by omega) (by omega)]
    omega

/-- C2: on a ready probe (valid latency, valid format, the period fields as
setup computes them, the delay in its property range) whose ring buffer
holds zero bytes, gst_webrtc_audio_probe_read treats the time difference as
infinite (G_MAXINT64), the clamp policy degenerates to a full-period skip
with offset 0, the returned period-sized block is entirely zero-filled, the
probe (hence its ring buffer) is left unchanged, and the returned delay is
the probe's non-negative delay. -/
theorem C2_empty_buffer_read_is_silence (p : Probe) (rec_time : Nat) (data0 : List Nat)
    (hlat : clockTimeValid p.latency = true)
    (hinfo : audioInfoValid p.info = true)
    (hr : p.info.rate = 8000 ∨ p.info.rate = 16000 ∨ p.info.rate = 32000 ∨ p.info.rate = 48000)
    (hps : p.period_samples = p.info.rate / 100)
    (hpsz : p.period_size = p.period_samples * p.info.bpf)
    (hd0 : 0 ≤ p.delay) (hd1 : p.delay ≤ 1500)
    (hempty : adapterAvailable p.adapter = 0)
    (hdata : data0.length = p.period_size) :
    (gst_webrtc_audio_probe_read p rec_time data0).delay = p.delay
    ∧ 0 ≤ (gst_webrtc_audio_probe_read p rec_time data0).delay
    ∧ probeReadDiff p rec_time = G_MAXINT64
    ∧ probeReadSkipOffset p (probeReadDiff p rec_time)
        (adapterAvailable p.adapter / p.info.bpf) = (p.period_samples, 0)
    ∧ (gst_webrtc_audio_probe_read p rec_time data0).data = List.replicate p.period_size 0
    ∧ (gst_webrtc_audio_probe_read p rec_time data0).data.length = p.period_size
    ∧ (gst_webrtc_audio_probe_read p rec_time data0).probe = p := by
  have hbpf : p.info.bpf ≠ 0 := by
    unfold audioInfoValid at hinfo
    simp at hinfo
    exact hinfo.2
  have havail : adapterAvailable p.adapter / p.info.bpf = 0 := by
    rw [hempty]
    simp
  have hdiff : probeReadDiff p rec_time = G_MAXINT64 := by
    unfold probeReadDiff
    rw [havail]
    simp
  have hso : probeReadSkipOffset p G_MAXINT64 0 = (p.period_samples, 0) :=
    probeReadSkipOffset_full p hd0 hd1 hr hps 0
  have hpos : 0 < p.period_size := by
    rw [hpsz, hps]
    rcases hr with h | h | h | h <;> rw [h] <;> omega
  have hdrop : data0.drop p.period_size = [] := by
    rw [← hdata]
    exact List.drop_length data0
  have hread : gst_webrtc_audio_probe_read p rec_time data0 =
      { delay := p.delay, rateOut := some p.info.rate,
        data := List.replicate p.period_size 0, probe := p } := by
    unfold gst_webrtc_audio_probe_read
    rw [hlat, hinfo]
    simp only [Bool.and_self, if_true, havail, hdiff, hso]
    simp [hpos, hdrop]
  refine ⟨by rw [hread], by rw [hread]; exact hd0, hdiff, by rw [hdiff, havail]; exact hso,
    by rw [hread], by rw [hread]; simp, by rw [hread]⟩

set_option maxRecDepth 16384 in
/-- Witness for C2 at the ready 8 kHz probe with an empty buffer. -/
theorem C2_empty_buffer_read_is_silence_witness :
    (gst_webrtc_audio_probe_read probeReady8 0 (List.replicate 160 3)).delay = probeReady8.delay
    ∧ 0 ≤ (gst_webrtc_audio_probe_read probeReady8 0 (List.replicate 160 3)).delay
    ∧ probeReadDiff probeReady8 0 = G_MAXINT64
    ∧ probeReadSkipOffset probeReady8 (probeReadDiff probeReady8 0)
        (adapterAvailable probeReady8.adapter / probeReady8.info.bpf)
        = (probeReady8.period_samples, 0)
    ∧ (gst_webrtc_audio_probe_read probeReady8 0 (List.replicate 160 3)).data
        = List.replicate probeReady8.period_size 0
    ∧ (gst_webrtc_audio_probe_read probeReady8 0 (List.replicate 160 3)).data.length
        = probeReady8.period_size
    ∧ (gst_webrtc_audio_probe_read probeReady8 0 (List.replicate 160 3)).probe = probeReady8 :=
  C2_empty_buffer_read_is_silence probeReady8 0 (List.replicate 160 3) (by decide) (by decide)
    (Or.inl (by decide)) (by decide) (by decide) (by decide) (by decide) (by decide) (by decide)

set_option maxRecDepth 16384 in
/-- C1 (the code, at the claim's failing input): a read before format setup
does return the sentinel -1 and leaves the destination block untouched, but
a freshly constructed probe already has a valid latency (0), so once the
format is set a read succeeds with delay 0 and overwrites the destination
block even though no latency event was ever received. -/
theorem C1_read_not_gated_on_latency_event :
    (gst_webrtc_audio_probe_read (probeNew "webrtcaudioprobe0") 0 (List.replicate 160 7)).delay = -1
    ∧ (gst_webrtc_audio_probe_read (probeNew "webrtcaudioprobe0") 0 (List.replicate 160 7)).data
        = List.replicate 160 7
    ∧ (gst_webrtc_audio_probe_read (probeNew "webrtcaudioprobe0") 0 (List.replicate 160 7)).probe
        = probeNew "webrtcaudioprobe0"
    ∧ clockTimeValid (probeNew "webrtcaudioprobe0").latency = true
    ∧ (gst_webrtc_audio_probe_setup (probeNew "webrtcaudioprobe0") fmt8).1 = true
    ∧ (gst_webrtc_audio_probe_read probeReady8 0 (List.replicate 160 7)).delay = 0
    ∧ (gst_webrtc_audio_probe_read probeReady8 0 (List.replicate 160 7)).delay ≠ -1
    ∧ (gst_webrtc_audio_probe_read probeReady8 0 (List.replicate 160 7)).data
        = List.replicate 160 0
    ∧ (gst_webrtc_audio_probe_read probeReady8 0 (List.replicate 160 7)).data
        ≠ List.replicate 160 7 := by
  decide

/-- C3 (amended): on a ready probe holding `k < period_samples` frames whose
computed diff equals the delay (skip = 0, offset = 0), the produced block has
exactly period_size bytes, its FIRST k frames equal the buffered data, its
LAST period - k frames are zero, and the ring buffer is left empty. -/
theorem C3_shortfall_copy_layout (p : Probe) (rec_time : Nat) (data0 : List Nat) (k : Nat)
    (hlat : clockTimeValid p.latency = true)
    (hinfo : audioInfoValid p.info = true)
    (hdiff : probeReadDiff p rec_time = p.delay)
    (hbytes : adapterAvailable p.adapter = k * p.info.bpf)
    (hk0 : 0 < k) (hk : k < p.period_samples)
    (hpsz : p.period_size = p.period_samples * p.info.bpf)
    (hdata : data0.length = p.period_size) :
    (gst_webrtc_audio_probe_read p rec_time data0).data
        = adapterBytes p.adapter ++ List.replicate (p.period_size - k * p.info.bpf) 0
    ∧ (gst_webrtc_audio_probe_read p rec_time data0).data.length = p.period_size
    ∧ adapterBytes (gst_webrtc_audio_probe_read p rec_time data0).probe.adapter = []
    ∧ adapterAvailable (gst_webrtc_audio_probe_read p rec_time data0).probe.adapter = 0 := by
  have hbpf : p.info.bpf ≠ 0 := by
    unfold audioInfoValid at hinfo
    simp at hinfo
    exact hinfo.2
  have hbpfpos : 0 < p.info.bpf := Nat.pos_of_ne_zero hbpf
  have havail : adapterAvailable p.adapter / p.info.bpf = k := by
    rw [hbytes]
    exact Nat.mul_div_cancel k hbpfpos
  have hso : probeReadSkipOffset p p.delay k = (0, 0) := by
    unfold probeReadSkipOffset
    rw [if_neg (lt_irrefl p.delay)]
    simp [i64, u64ofInt]
  have hXlen : (adapterBytes p.adapter).length = k * p.info.bpf := by
    rw [adapterBytes_length, hbytes]
  have hszlt : k * p.info.bpf < p.period_size := by
    rw [hpsz]
    exact Nat.mul_lt_mul_of_lt_of_le hk (Nat.le_refl _) hbpfpos
  have hszpos : 0 < k * p.info.bpf := Nat.mul_pos hk0 hbpfpos
  have hdrop0 : data0.drop p.period_size = [] := by
    rw [← hdata]
    exact List.drop_length data0
  have hread : gst_webrtc_audio_probe_read p rec_time data0 =
      { delay := p.delay, rateOut := some p.info.rate,
        data := adapterBytes p.adapter ++ List.replicate (p.period_size - k * p.info.bpf) 0,
        probe := { p with adapter := adapterFlush p.adapter (k * p.info.bpf) } } := by
    have hmin : min k p.period_samples = k := min_eq_left (Nat.le_of_lt hk)
    have htake : List.take (k * p.info.bpf) (adapterBytes p.adapter) = adapterBytes p.adapter := by
      rw [← hXlen]
      exact List.take_length _
    unfold gst_webrtc_audio_probe_read
    rw [hlat, hinfo]
    simp only [Bool.and_self, if_true, havail, hdiff, hso]
    simp only [Nat.sub_zero, Nat.zero_mul, Nat.add_zero, Nat.zero_add, List.drop_zero,
      zero_mul, zero_add, hmin]
    simp only [if_pos hszlt, if_pos hszpos, hdrop0, List.append_nil, htake]
    unfold writeBytes
    simp [List.drop_replicate, hXlen]
  have hflush : adapterBytes (adapterFlush p.adapter (k * p.info.bpf)) = [] := by
    rw [adapterFlush_bytes _ _ (by rw [hbytes])]
    rw [← hXlen]
    exact List.drop_length _
  refine ⟨by rw [hread], ?_, by rw [hread]; exact hflush, ?_⟩
  · rw [hread]
    simp only [List.length_append, List.length_replicate, hXlen]
    omega
  · rw [hread]
    show adapterAvailable (adapterFlush p.adapter (k * p.info.bpf)) = 0
    rw [← adapterBytes_length, hflush]
    rfl

set_option maxRecDepth 16384 in
/-- C3 (counterexample): on the ready 8 kHz probe holding one untimestamped
frame (bytes 1, 2) with diff = delay, the read's output block starts with the
buffered bytes and ends with zeros, so its first period - k frames are NOT
zero as the claim states (its very first byte is 1). -/
theorem C3_shortfall_layout_counterexample :
    probeReadDiff probeC3 0 = probeC3.delay
    ∧ probeC3.period_samples = 80
    ∧ adapterAvailable probeC3.adapter = 1 * probeC3.info.bpf
    ∧ (gst_webrtc_audio_probe_read probeC3 0 (List.replicate 160 9)).data
        = [1, 2] ++ List.replicate 158 0
    ∧ ¬ ((gst_webrtc_audio_probe_read probeC3 0 (List.replicate 160 9)).data.take 158
        = List.replicate 158 0)
    ∧ adapterBytes (gst_webrtc_audio_probe_read probeC3 0 (List.replicate 160 9)).probe.adapter
        = [] := by
  decide

set_option maxRecDepth 16384 in
/-- Witness for the amended C3 at the one-frame 8 kHz probe. -/
theorem C3_shortfall_copy_layout_witness :
    (gst_webrtc_audio_probe_read probeC3 0 (List.replicate 160 9)).data
        = adapterBytes probeC3.adapter
            ++ List.replicate (probeC3.period_size - 1 * probeC3.info.bpf) 0
    ∧ (gst_webrtc_audio_probe_read probeC3 0 (List.replicate 160 9)).data.length
        = probeC3.period_size
    ∧ adapterBytes (gst_webrtc_audio_probe_read probeC3 0 (List.replicate 160 9)).probe.adapter
        = []
    ∧ adapterAvailable
        (gst_webrtc_audio_probe_read probeC3 0 (List.replicate 160 9)).probe.adapter = 0 :=
  C3_shortfall_copy_layout probeC3 0 (List.replicate 160 9) 1 (by decide) (by decide)
    (by decide) (by decide) (by decide) (by decide) (by decide) (by decide)

/-- One far-end ingest call: the retained bytes are the pushed bytes
appended to the old ones, minus the oldest excess beyond MAX_ADAPTER_SIZE. -/
theorem transform_ip_bytes (q : Probe) (b : List Nat) (t : Nat) (dc : Bool) :
    adapterBytes ((gst_webrtc_audio_probe_transform_ip q b t dc).2).adapter
      = (adapterBytes q.adapter ++ b).drop
          ((adapterAvailable q.adapter + b.length) - MAX_ADAPTER_SIZE) := by
  unfold gst_webrtc_audio_probe_transform_ip
  have hpav : adapterAvailable (adapterPush q.adapter ⟨t, b, dc⟩)
      = adapterAvailable q.adapter + b.length := adapterPush_available _ _
  have hpby : adapterBytes (adapterPush q.adapter ⟨t, b, dc⟩)
      = adapterBytes q.adapter ++ b := adapterPush_bytes _ _
  by_cases hm : MAX_ADAPTER_SIZE < adapterAvailable (adapterPush q.adapter ⟨t, b, dc⟩)
  · simp only [if_pos hm]
    rw [adapterFlush_bytes _ _ (by omega), hpby, hpav]
  · simp only [if_neg hm]
    rw [hpby]
    have h0 : adapterAvailable q.adapter + b.length - MAX_ADAPTER_SIZE = 0 := by omega
    rw [h0, List.drop_zero]

/-- One far-end ingest call leaves at most MAX_ADAPTER_SIZE buffered bytes. -/
theorem transform_ip_available (q : Probe) (b : List Nat) (t : Nat) (dc : Bool) :
    adapterAvailable ((gst_webrtc_audio_probe_transform_ip q b t dc).2).adapter
      ≤ MAX_ADAPTER_SIZE := by
  unfold gst_webrtc_audio_probe_transform_ip
  have hpav : adapterAvailable (adapterPush q.adapter ⟨t, b, dc⟩)
      = adapterAvailable q.adapter + b.length := adapterPush_available _ _
  by_cases hm : MAX_ADAPTER_SIZE < adapterAvailable (adapterPush q.adapter ⟨t, b, dc⟩)
  · simp only [if_pos hm]
    rw [adapterFlush_available _ _ (by omega)]
    omega
  · simp only [if_neg hm]
    omega

theorem probeIngestAll_cons (p : Probe) (i : List Nat × Nat × Bool)
    (ins : List (List Nat × Nat × Bool)) :
    probeIngestAll p (i :: ins)
      = probeIngestAll ((gst_webrtc_audio_probe_transform_ip p i.1 i.2.1 i.2.2).2) ins := rfl

theorem probeIngestAll_available (ins : List (List Nat × Nat × Bool)) :
    ∀ p : Probe, ins ≠ [] →
      adapterAvailable ((probeIngestAll p ins).adapter) ≤ MAX_ADAPTER_SIZE := by
  induction ins with
  | nil => intro p h; exact absurd rfl h
  | cons i rest ih =>
    intro p _
    rw [probeIngestAll_cons]
    cases rest with
    | nil => exact transform_ip_available p i.1 i.2.1 i.2.2
    | cons j rest2 => exact ih _ (by simp)

theorem probeIngestAll_suffix (ins : List (List Nat × Nat × Bool)) :
    ∀ p : Probe, adapterBytes ((probeIngestAll p ins).adapter)
      <:+ adapterBytes p.adapter ++ (ins.map Prod.fst).flatten := by
  induction ins with
  | nil =>
    intro p
    simp [probeIngestAll]
  | cons i rest ih =>
    intro p
    rw [probeIngestAll_cons]
    have h2 : adapterBytes ((gst_webrtc_audio_probe_transform_ip p i.1 i.2.1 i.2.2).2).adapter
        <:+ adapterBytes p.adapter ++ i.1 := by
      rw [transform_ip_bytes]
      exact List.drop_suffix _ _
    obtain ⟨u, hu⟩ := h2
    refine (ih ((gst_webrtc_audio_probe_transform_ip p i.1 i.2.1 i.2.2).2)).trans ⟨u, ?_⟩
    simp only [List.map_cons, List.flatten_cons]
    rw [← List.append_assoc, ← List.append_assoc, hu]

/-- C4: every far-end ingest call returns GST_FLOW_OK; after the trimming
step the buffered bytes never exceed MAX_ADAPTER_SIZE (1 MiB); the retained
bytes are always a suffix of everything pushed, i.e. the most recently
pushed ones, with only the oldest excess discarded. -/
theorem C4_ingest_bound_and_recency :
    (∀ (q : Probe) (b : List Nat) (t : Nat) (dc : Bool),
        (gst_webrtc_audio_probe_transform_ip q b t dc).1 = FlowReturn.ok)
    ∧ (∀ (q : Probe) (b : List Nat) (t : Nat) (dc : Bool),
        adapterAvailable ((gst_webrtc_audio_probe_transform_ip q b t dc).2).adapter
          ≤ MAX_ADAPTER_SIZE)
    ∧ (∀ (q : Probe) (b : List Nat) (t : Nat) (dc : Bool),
        adapterBytes ((gst_webrtc_audio_probe_transform_ip q b t dc).2).adapter
          = (adapterBytes q.adapter ++ b).drop
              ((adapterAvailable q.adapter + b.length) - MAX_ADAPTER_SIZE))
    ∧ (∀ (p : Probe) (ins : List (List Nat × Nat × Bool)), ins ≠ [] →
        adapterAvailable ((probeIngestAll p ins).adapter) ≤ MAX_ADAPTER_SIZE)
    ∧ (∀ (p : Probe) (ins : List (List Nat × Nat × Bool)),
        adapterBytes ((probeIngestAll p ins).adapter)
          <:+ adapterBytes p.adapter ++ (ins.map Prod.fst).flatten) :=
  ⟨fun _ _ _ _ => rfl, transform_ip_available, transform_ip_bytes,
    fun p ins h => probeIngestAll_available ins p h,
    fun p ins => probeIngestAll_suffix ins p⟩

/-- C5 (amended): with echo cancellation enabled and a probe bound, a
sentinel (negative) delay from the probe read leaves the period with
GST_FLOW_OK and no ap_process_reverse call, but ap_delay IS still invoked
with the sentinel; only on a successful read whose rate matches is the
reference block submitted to ap_process_reverse (ap_delay having been
invoked with the delay as well). -/
theorem C5_reverse_stream_dispatch (self : Processor) (pr : Probe) (rec_time : Nat)
    (data0 : List Nat) (revStatus : Int)
    (hec : self.echo_cancel = true) (hpr : self.probe = some pr) :
    ((gst_webrtc_audio_probe_read pr rec_time data0).delay < 0 →
      (gst_webrtc_audio_processor_analyze_reverse_stream self rec_time data0 revStatus).flow
          = FlowReturn.ok
      ∧ (gst_webrtc_audio_processor_analyze_reverse_stream self rec_time data0 revStatus).calls
          = [EngineCall.apDelay (gst_webrtc_audio_probe_read pr rec_time data0).delay]
      ∧ EngineCall.apDelay (gst_webrtc_audio_probe_read pr rec_time data0).delay
          ∈ (gst_webrtc_audio_processor_analyze_reverse_stream self rec_time data0 revStatus).calls
      ∧ ∀ a b, EngineCall.apProcessReverse a b
          ∉ (gst_webrtc_audio_processor_analyze_reverse_stream self rec_time data0 revStatus).calls)
    ∧ (0 ≤ (gst_webrtc_audio_probe_read pr rec_time data0).delay →
        (gst_webrtc_audio_probe_read pr rec_time data0).rateOut = some self.info.rate →
        (gst_webrtc_audio_processor_analyze_reverse_stream self rec_time data0 revStatus).flow
            = FlowReturn.ok
        ∧ (gst_webrtc_audio_processor_analyze_reverse_stream self rec_time data0 revStatus).calls
            = [EngineCall.apDelay (gst_webrtc_audio_probe_read pr rec_time data0).delay,
               EngineCall.apProcessReverse self.info.rate self.info.channels]) := by
  unfold gst_webrtc_audio_processor_analyze_reverse_stream
  rw [hec, hpr]
  constructor
  · intro hneg
    simp only [if_true, if_pos hneg]
    simp
  · intro hpos hrate
    simp only [if_true, if_neg (not_lt.mpr hpos), hrate, bne_self_eq_false,
      Bool.false_eq_true, if_false]
    simp

set_option maxRecDepth 16384 in
/-- C5 (counterexample): on a processor bound to a not-yet-configured probe,
the read returns the sentinel -1, yet ap_delay(-1) IS called — refuting the
claim that the delay is forwarded to the engine only on a successful read. -/
theorem C5_sentinel_calls_apdelay_counterexample :
    (gst_webrtc_audio_probe_read (probeNew "webrtcaudioprobe0") 0 (List.replicate 4 0)).delay = -1
    ∧ (gst_webrtc_audio_processor_analyze_reverse_stream procC5 0 (List.replicate 4 0) 0).flow
        = FlowReturn.ok
    ∧ (gst_webrtc_audio_processor_analyze_reverse_stream procC5 0 (List.replicate 4 0) 0).calls
        = [EngineCall.apDelay (-1)]
    ∧ EngineCall.apDelay (-1)
        ∈ (gst_webrtc_audio_processor_analyze_reverse_stream procC5 0 (List.replicate 4 0) 0).calls := by
  decide

set_option maxRecDepth 16384 in
/-- Witness for the amended C5 at the unready probe (sentinel branch). -/
theorem C5_reverse_stream_dispatch_witness :
    ((gst_webrtc_audio_probe_read (probeNew "webrtcaudioprobe0") 0 (List.replicate 4 0)).delay < 0 →
      (gst_webrtc_audio_processor_analyze_reverse_stream procC5 0 (List.replicate 4 0) 0).flow
          = FlowReturn.ok
      ∧ (gst_webrtc_audio_processor_analyze_reverse_stream procC5 0 (List.replicate 4 0) 0).calls
          = [EngineCall.apDelay
              (gst_webrtc_audio_probe_read (probeNew "webrtcaudioprobe0") 0 (List.replicate 4 0)).delay]
      ∧ EngineCall.apDelay
            (gst_webrtc_audio_probe_read (probeNew "webrtcaudioprobe0") 0 (List.replicate 4 0)).delay
          ∈ (gst_webrtc_audio_processor_analyze_reverse_stream procC5 0 (List.replicate 4 0) 0).calls
      ∧ ∀ a b, EngineCall.apProcessReverse a b
          ∉ (gst_webrtc_audio_processor_analyze_reverse_stream procC5 0 (List.replicate 4 0) 0).calls)
    ∧ (0 ≤ (gst_webrtc_audio_probe_read (probeNew "webrtcaudioprobe0") 0 (List.replicate 4 0)).delay →
        (gst_webrtc_audio_probe_read (probeNew "webrtcaudioprobe0") 0 (List.replicate 4 0)).rateOut
            = some procC5.info.rate →
        (gst_webrtc_audio_processor_analyze_reverse_stream procC5 0 (List.replicate 4 0) 0).flow
            = FlowReturn.ok
        ∧ (gst_webrtc_audio_processor_analyze_reverse_stream procC5 0 (List.replicate 4 0) 0).calls
            = [EngineCall.apDelay
                (gst_webrtc_audio_probe_read (probeNew "webrtcaudioprobe0") 0 (List.replicate 4 0)).delay,
               EngineCall.apProcessReverse procC5.info.rate procC5.info.channels]) :=
  C5_reverse_stream_dispatch procC5 (probeNew "webrtcaudioprobe0") 0 (List.replicate 4 0) 0
    (by decide) (by decide)

/-- C6 (amended): take_buffer derives the period's pts from the
oldest-timestamp-and-distance query as prev_pts + distance / rate, and the
DISCONT flag is set on the output buffer exactly when that derived timestamp
EQUALS the adapter's recorded discont pts AND the prev-pts distance is zero
(and is unset otherwise). -/
theorem C6_take_buffer_pts_and_discont (proc : Processor) (_hbpf : 0 < proc.info.bpf) :
    (gst_webrtc_audio_processor_take_buffer proc).1.pts
      = ((adapterPrevPts proc.adapter).1
          + gst_util_uint64_scale_int ((adapterPrevPts proc.adapter).2 / proc.info.bpf)
              GST_SECOND proc.info.rate) % U64MOD
    ∧ ((gst_webrtc_audio_processor_take_buffer proc).1.discontFlag = true
        ↔ (proc.adapter.ptsAtDiscont = (gst_webrtc_audio_processor_take_buffer proc).1.pts
           ∧ (adapterPrevPts proc.adapter).2 / proc.info.bpf = 0)) := by
  unfold gst_webrtc_audio_processor_take_buffer
  refine ⟨rfl, ?_⟩
  show ((adapterFlush proc.adapter proc.period_size).ptsAtDiscont == _ && _ == 0) = true ↔ _
  rw [adapterFlush_ptsAtDiscont]
  simp [Bool.and_eq_true, beq_iff_eq]

set_option maxRecDepth 16384 in
/-- C6 (counterexample): after a DISCONT buffer with pts 1000000 fills a
fresh adapter, the derived timestamp equals the recorded discont pts — and
the code SETS the DISCONT flag, while the claim says the flag is set exactly
when the derived timestamp does NOT match. -/
theorem C6_discont_flag_on_match_counterexample :
    (gst_webrtc_audio_processor_take_buffer procC6).1.pts = 1000000
    ∧ procC6.adapter.ptsAtDiscont = 1000000
    ∧ (gst_webrtc_audio_processor_take_buffer procC6).1.discontFlag = true := by
  decide

set_option maxRecDepth 16384 in
/-- Witness for the amended C6 at the DISCONT-filled 8 kHz processor. -/
theorem C6_take_buffer_pts_and_discont_witness :
    (gst_webrtc_audio_processor_take_buffer procC6).1.pts
      = ((adapterPrevPts procC6.adapter).1
          + gst_util_uint64_scale_int ((adapterPrevPts procC6.adapter).2 / procC6.info.bpf)
              GST_SECOND procC6.info.rate) % U64MOD
    ∧ ((gst_webrtc_audio_processor_take_buffer procC6).1.discontFlag = true
        ↔ (procC6.adapter.ptsAtDiscont = (gst_webrtc_audio_processor_take_buffer procC6).1.pts
           ∧ (adapterPrevPts procC6.adapter).2 / procC6.info.bpf = 0)) :=
  C6_take_buffer_pts_and_discont procC6 (by decide)

/-- C7: if setup runs while a probe with a known (nonzero) rate is acquired,
a differing rate makes setup fail and an equal rate makes it succeed; either
way the new format and period sizes have been recorded, and the probe's
channel count plays no role. -/
theorem C7_setup_probe_rate_check (self : Processor) (pr : Probe) (info : AudioInfo)
    (hpr : self.probe = some pr) (hknown : pr.info.rate ≠ 0) :
    (pr.info.rate ≠ info.rate →
        gst_webrtc_audio_processor_setup self info = (false, processorSetupState self info))
    ∧ (pr.info.rate = info.rate →
        gst_webrtc_audio_processor_setup self info = (true, processorSetupState self info))
    ∧ (processorSetupState self info).info = info
    ∧ (processorSetupState self info).period_samples = info.rate / 100
    ∧ (processorSetupState self info).period_size = info.rate / 100 * info.bpf := by
  unfold gst_webrtc_audio_processor_setup
  rw [hpr]
  refine ⟨?_, ?_, rfl, rfl, rfl⟩
  · intro hne
    simp [hknown, hne]
  · intro heq
    simp [heq]

/-- Witness for C7: a 48 kHz setup with a probe known at 16 kHz. -/
theorem C7_setup_probe_rate_check_witness :
    (probeKnown16.info.rate ≠ fmt48.rate →
        gst_webrtc_audio_processor_setup procC7 fmt48
          = (false, processorSetupState procC7 fmt48))
    ∧ (probeKnown16.info.rate = fmt48.rate →
        gst_webrtc_audio_processor_setup procC7 fmt48
          = (true, processorSetupState procC7 fmt48))
    ∧ (processorSetupState procC7 fmt48).info = fmt48
    ∧ (processorSetupState procC7 fmt48).period_samples = fmt48.rate / 100
    ∧ (processorSetupState procC7 fmt48).period_size = fmt48.rate / 100 * fmt48.bpf :=
  C7_setup_probe_rate_check procC7 probeKnown16 fmt48 (by decide) (by decide)

/-- A registry scan in which no probe is simultaneously unacquired and
name-matching returns NULL and leaves the registry unchanged. -/
theorem acquire_none_of_no_eligible (name : String) (l : List Probe)
    (h : ∀ q ∈ l, q.acquired = true ∨ q.name ≠ name) :
    gst_webrtc_acquire_audio_probe name l = (none, l) := by
  induction l with
  | nil => rfl
  | cons p rest ih =>
    have hp := h p (by simp)
    have hc : (!p.acquired && p.name == name) = false := by
      rcases hp with h1 | h1 <;> simp [h1]
    unfold gst_webrtc_acquire_audio_probe
    rw [hc]
    simp only [Bool.false_eq_true, if_false]
    rw [ih (fun q hq => h q (by simp [hq]))]

/-- The scan acquires the first eligible (unacquired, name-matching) probe,
marking its flag in place. -/
theorem acquire_finds_first (name : String) (l1 : List Probe) (p : Probe) (l2 : List Probe)
    (h1 : ∀ q ∈ l1, q.acquired = true ∨ q.name ≠ name)
    (hp : p.acquired = false) (hn : p.name = name) :
    gst_webrtc_acquire_audio_probe name (l1 ++ p :: l2)
      = (some { p with acquired := true }, l1 ++ { p with acquired := true } :: l2) := by
  induction l1 with
  | nil =>
    unfold gst_webrtc_acquire_audio_probe
    simp [hp, hn]
  | cons q rest ih =>
    have hq := h1 q (by simp)
    have hc : (!q.acquired && q.name == name) = false := by
      rcases hq with h | h <;> simp [h]
    show gst_webrtc_acquire_audio_probe name (q :: (rest ++ p :: l2)) = _
    unfold gst_webrtc_acquire_audio_probe
    rw [hc]
    simp only [Bool.false_eq_true, if_false]
    rw [ih (fun r hr => h1 r (by simp [hr]))]
    rfl

theorem probe_clear_acquired_eq (p : Probe) (hp : p.acquired = false) :
    gst_webrtc_release_audio_probe { p with acquired := true } = p := by
  cases p
  simp_all [gst_webrtc_release_audio_probe]

/-- C8: acquire(name) returns the first unacquired probe named `name` in
scan order, marking it acquired; with no eligible probe it returns NULL and
leaves the registry unchanged — hence, with exactly one probe of that name,
two successive acquires yield one success and one NULL, and after release a
subsequent acquire succeeds again. -/
theorem C8_registry_acquire_release (name : String) (l1 l2 : List Probe) (p : Probe)
    (h1 : ∀ q ∈ l1, q.acquired = true ∨ q.name ≠ name)
    (hp : p.acquired = false) (hn : p.name = name) :
    gst_webrtc_acquire_audio_probe name (l1 ++ p :: l2)
      = (some { p with acquired := true }, l1 ++ { p with acquired := true } :: l2)
    ∧ ((∀ q ∈ l1 ++ l2, q.name ≠ name) →
        gst_webrtc_acquire_audio_probe name (l1 ++ { p with acquired := true } :: l2)
          = (none, l1 ++ { p with acquired := true } :: l2))
    ∧ gst_webrtc_acquire_audio_probe name
        (l1 ++ gst_webrtc_release_audio_probe { p with acquired := true } :: l2)
        = (some { p with acquired := true }, l1 ++ { p with acquired := true } :: l2)
    ∧ (∀ l : List Probe, (∀ q ∈ l, q.name ≠ name) →
        gst_webrtc_acquire_audio_probe name l = (none, l)) := by
  refine ⟨acquire_finds_first name l1 p l2 h1 hp hn, ?_, ?_, ?_⟩
  · intro hall
    apply acquire_none_of_no_eligible
    intro q hq
    rcases List.mem_append.mp hq with h | h
    · exact Or.inr (hall q (List.mem_append.mpr (Or.inl h)))
    · rcases List.mem_cons.mp h with h | h
      · subst h
        exact Or.inl rfl
      · exact Or.inr (hall q (List.mem_append.mpr (Or.inr h)))
  · rw [probe_clear_acquired_eq p hp]
    exact acquire_finds_first name l1 p l2 h1 hp hn
  · exact fun l hl => acquire_none_of_no_eligible name l (fun q hq => Or.inr (hl q hq))

/-- Witness for C8: a registry holding exactly the fresh probe
webrtcaudioprobe0. -/
theorem C8_registry_acquire_release_witness :
    gst_webrtc_acquire_audio_probe "webrtcaudioprobe0"
        ([] ++ probeNew "webrtcaudioprobe0" :: [])
      = (some { (probeNew "webrtcaudioprobe0") with acquired := true },
         [] ++ { (probeNew "webrtcaudioprobe0") with acquired := true } :: [])
    ∧ ((∀ q ∈ ([] ++ [] : List Probe), q.name ≠ "webrtcaudioprobe0") →
        gst_webrtc_acquire_audio_probe "webrtcaudioprobe0"
            ([] ++ { (probeNew "webrtcaudioprobe0") with acquired := true } :: [])
          = (none, [] ++ { (probeNew "webrtcaudioprobe0") with acquired := true } :: []))
    ∧ gst_webrtc_acquire_audio_probe "webrtcaudioprobe0"
        ([] ++ gst_webrtc_release_audio_probe
            { (probeNew "webrtcaudioprobe0") with acquired := true } :: [])
        = (some { (probeNew "webrtcaudioprobe0") with acquired := true },
           [] ++ { (probeNew "webrtcaudioprobe0") with acquired := true } :: [])
    ∧ (∀ l : List Probe, (∀ q ∈ l, q.name ≠ "webrtcaudioprobe0") →
        gst_webrtc_acquire_audio_probe "webrtcaudioprobe0" l = (none, l)) :=
  C8_registry_acquire_release "webrtcaudioprobe0" [] [] (probeNew "webrtcaudioprobe0")
    (by simp) (by decide) (by decide)

/-- C9: a negative ap_process status is only logged — the period still
completes with GST_FLOW_OK (so generate_output forwards the block), and a
negative ap_process_reverse status in analyze_reverse_stream is likewise
only logged, the flow staying GST_FLOW_OK. -/
theorem C9_engine_failure_never_fatal (self : Processor) (pr : Probe)
    (status revStatus : Int) (rec_time : Nat) (data0 : List Nat)
    (hst : status < 0) (hrev : revStatus < 0) :
    (gst_webrtc_audio_processor_process_stream self true status).1 = FlowReturn.ok
    ∧ (gst_webrtc_audio_processor_process_stream self true status).2.1
        = [EngineCall.apProcess self.info.rate self.info.channels]
    ∧ (gst_webrtc_audio_processor_process_stream self true status).2.2 = true
    ∧ (self.echo_cancel = true → self.probe = some pr →
        0 ≤ (gst_webrtc_audio_probe_read pr rec_time data0).delay →
        (gst_webrtc_audio_probe_read pr rec_time data0).rateOut = some self.info.rate →
        (gst_webrtc_audio_processor_analyze_reverse_stream self rec_time data0 revStatus).flow
            = FlowReturn.ok
        ∧ (gst_webrtc_audio_processor_analyze_reverse_stream self rec_time data0 revStatus).warned
            = true) := by
  refine ⟨rfl, rfl, by simp [gst_webrtc_audio_processor_process_stream, hst], ?_⟩
  intro hec hpr hd hrt
  unfold gst_webrtc_audio_processor_analyze_reverse_stream
  rw [hec, hpr]
  simp only [if_true, if_neg (not_lt.mpr hd), hrt, bne_self_eq_false,
    Bool.false_eq_true, if_false]
  simp [hrev]

set_option maxRecDepth 16384 in
/-- Witness for C9 at a ready 48 kHz probe and engine statuses -1. -/
theorem C9_engine_failure_never_fatal_witness :
    (gst_webrtc_audio_processor_process_stream procC9 true (-1)).1 = FlowReturn.ok
    ∧ (gst_webrtc_audio_processor_process_stream procC9 true (-1)).2.1
        = [EngineCall.apProcess procC9.info.rate procC9.info.channels]
    ∧ (gst_webrtc_audio_processor_process_stream procC9 true (-1)).2.2 = true
    ∧ (procC9.echo_cancel = true → procC9.probe = some probeReady48 →
        0 ≤ (gst_webrtc_audio_probe_read probeReady48 0 (List.replicate 960 0)).delay →
        (gst_webrtc_audio_probe_read probeReady48 0 (List.replicate 960 0)).rateOut
            = some procC9.info.rate →
        (gst_webrtc_audio_processor_analyze_reverse_stream procC9 0
            (List.replicate 960 0) (-1)).flow = FlowReturn.ok
        ∧ (gst_webrtc_audio_processor_analyze_reverse_stream procC9 0
            (List.replicate 960 0) (-1)).warned = true) :=
  C9_engine_failure_never_fatal procC9 probeReady48 (-1) (-1) 0 (List.replicate 960 0)
    (by decide) (by decide)

/-- C10: a format whose 10 ms period exceeds 2 * kMaxDataSizeSamples bytes
makes gst_webrtc_audio_probe_setup return FALSE, but the probe's info,
period_samples and period_size have already been overwritten with the
rejected format's values and are not restored — a rejected setup is not
state-atomic. -/
theorem C10_probe_setup_not_atomic (p : Probe) (info : AudioInfo)
    (hbig : kMaxDataSizeSamples * 2 < info.rate / 100 * info.bpf) :
    gst_webrtc_audio_probe_setup p info
      = (false,
          { p with
              info := info,
              period_samples := info.rate / 100,
              period_size := info.rate / 100 * info.bpf })
    ∧ (gst_webrtc_audio_probe_setup p info).2.info = info
    ∧ (gst_webrtc_audio_probe_setup p info).2.period_samples = info.rate / 100
    ∧ (gst_webrtc_audio_probe_setup p info).2.period_size = info.rate / 100 * info.bpf
    ∧ (p.info ≠ info → (gst_webrtc_audio_probe_setup p info).2.info ≠ p.info) := by
  have h : gst_webrtc_audio_probe_setup p info
      = (false,
          { p with
              info := info,
              period_samples := info.rate / 100,
              period_size := info.rate / 100 * info.bpf }) := by
    unfold gst_webrtc_audio_probe_setup
    rw [if_pos hbig]
  refine ⟨h, by rw [h], by rw [h], by rw [h], ?_⟩
  intro hne
  rw [h]
  exact fun he => hne he.symm

/-- Witness for C10: a fresh probe offered the 48 kHz 17-channel format
(period 16320 bytes, above the 15360-byte ceiling). -/
theorem C10_probe_setup_not_atomic_witness :
    gst_webrtc_audio_probe_setup (probeNew "webrtcaudioprobe0") fmt48x17
      = (false,
          { (probeNew "webrtcaudioprobe0") with
              info := fmt48x17,
              period_samples := fmt48x17.rate / 100,
              period_size := fmt48x17.rate / 100 * fmt48x17.bpf })
    ∧ (gst_webrtc_audio_probe_setup (probeNew "webrtcaudioprobe0") fmt48x17).2.info = fmt48x17
    ∧ (gst_webrtc_audio_probe_setup (probeNew "webrtcaudioprobe0") fmt48x17).2.period_samples
        = fmt48x17.rate / 100
    ∧ (gst_webrtc_audio_probe_setup (probeNew "webrtcaudioprobe0") fmt48x17).2.period_size
        = fmt48x17.rate / 100 * fmt48x17.bpf
    ∧ ((probeNew "webrtcaudioprobe0").info ≠ fmt48x17 →
        (gst_webrtc_audio_probe_setup (probeNew "webrtcaudioprobe0") fmt48x17).2.info
          ≠ (probeNew "webrtcaudioprobe0").info) :=
  C10_probe_setup_not_atomic (probeNew "webrtcaudioprobe0") fmt48x17 (by decide)

end WebrtcAudio
